import Mathlib

/-!
Verification of the pypurpleair measurement-normalization and write pipeline.

This file gives a shallow embedding of the Python sources
(`pypurpleair/measurement_base.py`, `pa_lan.py`, `pa_web.py`, `influx.py`,
`sensor_base.py`) and proves properties of the embedded definitions.

Conventions of the embedding:
* Python floats are modelled as rationals (`ℚ`); all the arithmetic in the
  source (AQI interpolation, EPA correction) is exact decimal arithmetic on
  the modelled inputs.
* JSON scalar values are modelled by the inductive type `Value`
  (null / string / number / boolean); a Python dict is an association list
  `List (String × Value)` with unique keys, looked up by first match.
* Fallible Python code (KeyError, ValueError, TypeError, RuntimeError,
  AttributeError, raised ValueError in constructors) is modelled in
  `Except String`; the message records which Python exception would fire.
* The "no data" sentinel `None` returned by `prepare_for_influxdb` on the
  LAN path is `Option.none` inside a successful `Except` result.
-/

/-- A JSON scalar value as it appears in a parsed sensor reading:
`null`, a string, a number (Python float/int, modelled as `ℚ`) or a bool. -/
inductive Value where
  | null : Value
  | str (s : String) : Value
  | num (q : ℚ) : Value
  | bool (b : Bool) : Value
deriving DecidableEq, Repr

/-- First-match lookup in an association list; models `d[k]` / `d.get(k)`
access into a Python dict (dict keys are unique, so first match is the
unique match). -/
def lookupKey (d : List (String × Value)) (k : String) : Option Value :=
  match d with
  | [] => none
  | (k', v) :: rest => if k' == k then some v else lookupKey rest k

/-- Models the Python subscript `d[k]`: the value when the key is present,
otherwise a KeyError. -/
def getItem (d : List (String × Value)) (k : String) : Except String Value :=
  match lookupKey d k with
  | some v => .ok v
  | none => .error ("KeyError: " ++ k)

/-- Models Python's `int(x)` on a float: truncation toward zero. -/
def pyTrunc (q : ℚ) : ℤ :=
  if 0 ≤ q then ⌊q⌋ else ⌈q⌉

/-- Models Python's `s.startswith(p)` on strings (executable by kernel
reduction, unlike the builtin `String.startsWith`). -/
def strStartsWith (s p : String) : Bool :=
  s.toList.take p.toList.length == p.toList

/-- Decimal digits to a natural number (big-endian). -/
def digitsToNat (l : List Char) : ℕ :=
  l.foldl (fun n c => 10 * n + (c.toNat - 48)) 0

/-- Modelled from the Python builtin `float(s)` on plain decimal string
literals: optional sign, integer part, optional fractional part (at least
one digit overall).  Exponents and the special values inf/nan are not
produced by the sensors and are not modelled.  Returns `none` where Python
raises ValueError. -/
def parseFloatQ (s : String) : Option ℚ :=
  let l := s.toList
  let sign : ℚ := if l.head? = some '-' then -1 else 1
  let l := if l.head? = some '-' ∨ l.head? = some '+' then l.drop 1 else l
  let intPart := l.takeWhile Char.isDigit
  let rest := l.dropWhile Char.isDigit
  match rest with
  | [] =>
    if intPart.isEmpty then none
    else some (sign * (digitsToNat intPart : ℚ))
  | '.' :: frac =>
    if frac.all Char.isDigit ∧ ¬(intPart.isEmpty ∧ frac.isEmpty) then
      some (sign * ((digitsToNat intPart : ℚ) + (digitsToNat frac : ℚ) / 10 ^ frac.length))
    else none
  | _ => none

/-- Modelled from the Python builtin `int(s)` on strings: optional sign and
a nonempty digit run.  Returns `none` where Python raises ValueError. -/
def parseIntZ (s : String) : Option ℤ :=
  let l := s.toList
  let sign : ℤ := if l.head? = some '-' then -1 else 1
  let l := if l.head? = some '-' ∨ l.head? = some '+' then l.drop 1 else l
  if l.isEmpty ∨ ¬l.all Char.isDigit then none
  else some (sign * (digitsToNat l : ℤ))

/-- Models the Python builtin `float(v)` applied to a JSON scalar. -/
def pyFloat (v : Value) : Except String ℚ :=
  match v with
  | .num q => .ok q
  | .str s =>
    match parseFloatQ s with
    | some q => .ok q
    | none => .error "ValueError: could not convert string to float"
  | .bool b => .ok (if b then 1 else 0)
  | .null => .error "TypeError: float() argument is None"

/-- Models the Python builtin `int(v)` applied to a JSON scalar. -/
def pyInt (v : Value) : Except String ℤ :=
  match v with
  | .num q => .ok (pyTrunc q)
  | .str s =>
    match parseIntZ s with
    | some z => .ok z
    | none => .error "ValueError: invalid literal for int"
  | .bool b => .ok (if b then 1 else 0)
  | .null => .error "TypeError: int() argument is None"

/-- An optional number stored into a dict slot: Python stores `None` for a
missing reading, which serializes as a null value. -/
def optNumToValue (o : Option ℚ) : Value :=
  match o with
  | none => .null
  | some q => .num q

/-- An optional integer stored into a dict slot. -/
def optIntToValue (o : Option ℤ) : Value :=
  match o with
  | none => .null
  | some z => .num (z : ℚ)

/-- The dict `{"time": ..., "tags": ..., "fields": ...}` returned by
`prepare_for_influxdb` in both measurement variants. -/
structure InfluxPoint where
  time : Value
  tags : List (String × Value)
  fields : List (String × Value)
deriving DecidableEq, Repr

namespace MeasurementBase

/-- Concentration breakpoints of `MeasurementBase.get_aqi`
(`measurement_base.py` lines 27-35); the units are tenths of µg/m³ because
the function scales the input by 10 first. -/
def concentration_limits : List (ℤ × ℤ) :=
  [(0, 120), (121, 354), (355, 554), (555, 1504), (1505, 2504), (2505, 3504), (3505, 5004)]

/-- AQI breakpoints of `MeasurementBase.get_aqi`
(`measurement_base.py` lines 36-44). -/
def aqi_limits : List (ℤ × ℤ) :=
  [(0, 50), (51, 100), (101, 150), (151, 200), (201, 300), (301, 400), (401, 500)]

/-- The rows `(concentration_limits[i], aqi_limits[i])`; the source iterates
`concentration_limits` with `enumerate` and indexes `aqi_limits[ii]`, which
is the same pairing. -/
def limitTable : List ((ℤ × ℤ) × (ℤ × ℤ)) :=
  concentration_limits.zip aqi_limits

/-- The bucket-search loop of `MeasurementBase.get_aqi`
(`measurement_base.py` lines 48-50): scan the rows and `break` on the first
row whose concentration interval contains `p`.  The loop has no `else`
clause and the body after the loop reads the loop variables, so when no row
matches, the variables keep the values of the LAST iteration — `last`
carries the most recently visited row. -/
def loopLookup (p : ℤ) : List ((ℤ × ℤ) × (ℤ × ℤ)) → ((ℤ × ℤ) × (ℤ × ℤ)) → ((ℤ × ℤ) × (ℤ × ℤ))
  | [], last => last
  | e :: rest, _ => if e.1.1 ≤ p ∧ p ≤ e.1.2 then e else loopLookup p rest e

/-- Embeds `MeasurementBase.get_aqi` (`measurement_base.py` lines 17-58):
multiply the concentration by 10, truncate to an integer, look up the
bucket, divide back by 10 and interpolate.  The initial row passed to
`loopLookup` is immediately overwritten by the first iteration since the
table is nonempty. -/
def get_aqi (pm_2_5 : ℚ) : ℚ :=
  let p : ℤ := pyTrunc (pm_2_5 * 10)
  let row := loopLookup p limitTable ((0, 120), (0, 50))
  let pm : ℚ := (p : ℚ) / 10
  let c_low : ℚ := (row.1.1 : ℚ) / 10
  let c_high : ℚ := (row.1.2 : ℚ) / 10
  let i_low : ℚ := (row.2.1 : ℚ)
  let i_high : ℚ := (row.2.2 : ℚ)
  (i_high - i_low) * (pm - c_low) / (c_high - c_low) + i_low

/-- Embeds `MeasurementBase.get_epa_correction` (`measurement_base.py`
lines 60-92): `None` when any input is `None` (the source tests
`None in [a, b, humidity]`), otherwise the EPA linear correction clamped at
zero. -/
def get_epa_correction (pm2_5_cf_1_a pm2_5_cf_1_b humidity : Option ℚ) : Option ℚ :=
  match pm2_5_cf_1_a, pm2_5_cf_1_b, humidity with
  | some a, some b, some h =>
    let pm2_5_mean := (a + b) / 2
    some (max 0 (0.534 * pm2_5_mean - 0.0844 * h + 5.604))
  | _, _, _ => none

end MeasurementBase

namespace PaWeb

/-- Concentration breakpoints of `Measurement._get_aqi`
(`pa_web.py` lines 148-156), in µg/m³. -/
def concentrationLimitsWeb : List (ℚ × ℚ) :=
  [(0.0, 12.0), (12.1, 35.4), (35.5, 55.4), (55.5, 150.4), (150.5, 250.4),
   (250.5, 350.4), (350.5, 500.4)]

/-- AQI breakpoints of `Measurement._get_aqi` (`pa_web.py` lines 157-165). -/
def aqiLimitsWeb : List (ℚ × ℚ) :=
  [(0, 50), (51, 100), (101, 150), (151, 200), (201, 300), (301, 400), (401, 500)]

/-- Embeds `Measurement._get_aqi` from `pa_web.py` (lines 144-179): find the
first bucket containing `pm`; raise RuntimeError ("PM 2.5 out of range")
when no bucket matches (`limit is None`), otherwise interpolate.  The source
pairs `concentration_limits[i]` with `aqi_limits[i]` via `enumerate`, which
the zip reproduces. -/
def Measurement.getAqi (pm : ℚ) : Except String ℚ :=
  match (concentrationLimitsWeb.zip aqiLimitsWeb).find?
      (fun e => decide (e.1.1 ≤ pm ∧ pm ≤ e.1.2)) with
  | none => .error "RuntimeError: PM 2.5 out of range"
  | some ((c_low, c_high), (i_low, i_high)) =>
    .ok ((i_high - i_low) * (pm - c_low) / (c_high - c_low) + i_low)

end PaWeb

/-- C1: for `MeasurementBase.get_aqi`, which multiplies the concentration by
10 and truncates before bucket lookup and divides back by 10 for the
interpolation, AQI(12.0) = 50 and AQI(12.1) = 51: the piecewise-linear
interpolation is continuous across the first breakpoint boundary, with no
gap or overlap. -/
theorem aqi_breakpoint_continuity :
    MeasurementBase.get_aqi 12 = 50 ∧ MeasurementBase.get_aqi 12.1 = 51 := by
  constructor <;>
    norm_num [MeasurementBase.get_aqi, MeasurementBase.loopLookup,
      MeasurementBase.limitTable, MeasurementBase.concentration_limits,
      MeasurementBase.aqi_limits, pyTrunc]

/-- C2 (code evaluated at the failing inputs): `MeasurementBase.get_aqi`
does NOT raise on out-of-range input.  The bucket loop falls through without
a `break`, leaving the loop variables at the last table row, so the function
silently extrapolates from the top bucket: it returns 848104/1499 ≈ 565.8
for concentration 600.0 (> 500.4) and 253114/1499 ≈ 168.9 for the negative
concentration -1.0.  The parallel implementation `Measurement._get_aqi` in
`pa_web.py` raises RuntimeError on the same inputs, as the claim states. -/
theorem aqi_out_of_range_fallthrough :
    MeasurementBase.get_aqi 600 = 848104 / 1499 ∧
    MeasurementBase.get_aqi (-1) = 253114 / 1499 ∧
    (PaWeb.Measurement.getAqi 600).toOption = none ∧
    (PaWeb.Measurement.getAqi (-1)).toOption = none := by
  have hceil : ⌈(-10 : ℚ)⌉ = -10 := by
    rw [show ((-10 : ℚ)) = ((-10 : ℤ) : ℚ) by norm_num]
    exact Int.ceil_intCast _
  refine ⟨?_, ?_, ?_, ?_⟩ <;>
    norm_num [MeasurementBase.get_aqi, MeasurementBase.loopLookup,
      MeasurementBase.limitTable, MeasurementBase.concentration_limits,
      MeasurementBase.aqi_limits, pyTrunc, PaWeb.Measurement.getAqi,
      PaWeb.concentrationLimitsWeb, PaWeb.aqiLimitsWeb, List.find?,
      Except.toOption, hceil]

/-- C3: `get_epa_correction` returns null whenever any of its three inputs
is null (in particular for all three combinations with exactly one null
input); otherwise it returns `max 0 (0.534 * ((A + B) / 2) - 0.0844 * h +
5.604)`, and that result is always ≥ 0 — the clamp is never violated. -/
theorem epa_correction_contract :
    (∀ b h : Option ℚ, MeasurementBase.get_epa_correction none b h = none) ∧
    (∀ a h : Option ℚ, MeasurementBase.get_epa_correction a none h = none) ∧
    (∀ a b : Option ℚ, MeasurementBase.get_epa_correction a b none = none) ∧
    (∀ a b h : ℚ,
      MeasurementBase.get_epa_correction (some a) (some b) (some h)
          = some (max 0 (0.534 * ((a + b) / 2) - 0.0844 * h + 5.604)) ∧
      (0 : ℚ) ≤ max 0 (0.534 * ((a + b) / 2) - 0.0844 * h + 5.604)) := by
  refine ⟨?_, ?_, ?_, ?_⟩
  · intro b h; cases b <;> cases h <;> rfl
  · intro a h; cases a <;> cases h <;> rfl
  · intro a b; cases a <;> cases b <;> rfl
  · intro a b h
    exact ⟨rfl, le_max_left _ _⟩

/-- Severity of an emitted log line. -/
inductive LogLevel where
  | error : LogLevel
  | info : LogLevel
deriving DecidableEq, Repr

namespace SensorBase

/-- Embeds `SensorBase._set_connection_state` (`sensor_base.py` lines
110-121).  `connected` is the current `self._connected`, `state` the
reported outcome.  Returns the new `self._connected`, the `state_changed`
result, and the log line emitted (the lost/regained messages are the
per-sensor `_lost_connection_msg` / `_regained_connection_msg`
properties, passed in as parameters). -/
def set_connection_state (lostMsg regainedMsg : String) (connected state : Bool) :
    Bool × Bool × Option (LogLevel × String) :=
  if state && !connected then (state, true, some (.info, regainedMsg))
  else if connected && !state then (state, true, some (.error, lostMsg))
  else (state, false, none)

/-- Runs a sequence of `report(success)` calls against the sensor-link
tracker, threading `self._connected` and collecting emitted log lines. -/
def runConnection (lostMsg regainedMsg : String) : Bool → List Bool → List (LogLevel × String)
  | _, [] => []
  | connected, state :: rest =>
    let r := set_connection_state lostMsg regainedMsg connected state
    r.2.2.toList ++ runConnection lostMsg regainedMsg r.1 rest

end SensorBase

namespace Influx

/-- Embeds `PurpleAirDb._set_connection_state` (`influx.py` lines 159-170):
identical logic to the sensor tracker with the fixed InfluxDB messages. -/
def set_connection_state_db (connected state : Bool) :
    Bool × Bool × Option (LogLevel × String) :=
  if state && !connected then (state, true, some (.info, "Connected to InfluxDB."))
  else if connected && !state then (state, true, some (.error, "Cannot connect to InfluxDB."))
  else (state, false, none)

/-- Runs a sequence of reported outcomes against the database-link tracker. -/
def runConnectionDb : Bool → List Bool → List (LogLevel × String)
  | _, [] => []
  | connected, state :: rest =>
    let r := set_connection_state_db connected state
    r.2.2.toList ++ runConnectionDb r.1 rest

/-- Embeds `PurpleAirDb._pop_none_from_dict` (`influx.py` lines 64-70):
every key whose value is `None` is removed from the given category of the
point. -/
def pop_none_from_dict (d : List (String × Value)) : List (String × Value) :=
  d.filter (fun kv => match kv.2 with | Value.null => false | _ => true)

/-- The dict handed to `InfluxDBClient.write_points`: the prepared point
plus the `measurement` key attached by `write_sensor_measurement`. -/
structure WritePoint where
  measurement : String
  time : Value
  tags : List (String × Value)
  fields : List (String × Value)
deriving DecidableEq, Repr

/-- Embeds the point-processing path of `PurpleAirDb.write_sensor_measurement`
(`influx.py` lines 72-110): `prepared` is the result of
`prepare_for_influxdb()` (`none` models both `None` and an empty dict, which
are falsy).  On a falsy point the function returns without writing
(modelled as `none`); otherwise it attaches the measurement name, pops
null-valued keys from the `tags` and `fields` categories, and hands the
point to `write_points` (modelled as the returned `WritePoint`).  The log
lines and the `_last_sensor_read_valid` / `_first_write` bookkeeping do not
affect the written point and are modelled by the connection-state
definitions above. -/
def write_sensor_measurement (prepared : Option InfluxPoint) (influxMeasurement : String) :
    Option WritePoint :=
  match prepared with
  | none => none
  | some p =>
    some { measurement := influxMeasurement, time := p.time,
           tags := pop_none_from_dict p.tags, fields := pop_none_from_dict p.fields }

/-- True when no entry of the association list carries a null value. -/
def noNullValues (d : List (String × Value)) : Bool :=
  d.all (fun kv => match kv.2 with | Value.null => false | _ => true)

end Influx

/-- C6: for each connection-state tracker (sensor link and database link),
starting Connected, the report sequence [failure, failure, failure, success]
emits exactly 2 log events (one lost-connection ERROR line, one
regained-connection INFO line), not 4; and in general a log line is emitted
exactly when the reported outcome differs from the current state. -/
theorem connection_tracker_edge_triggered :
    (∀ lostMsg regainedMsg : String,
      SensorBase.runConnection lostMsg regainedMsg true [false, false, false, true]
        = [(.error, lostMsg), (.info, regainedMsg)]) ∧
    Influx.runConnectionDb true [false, false, false, true]
        = [(.error, "Cannot connect to InfluxDB."), (.info, "Connected to InfluxDB.")] ∧
    (∀ (lostMsg regainedMsg : String) (connected state : Bool),
      (SensorBase.set_connection_state lostMsg regainedMsg connected state).2.2.isSome
        = (state != connected)) ∧
    (∀ connected state : Bool,
      (Influx.set_connection_state_db connected state).2.2.isSome = (state != connected)) := by
  refine ⟨fun l r => rfl, rfl, ?_, ?_⟩
  · intro l r c s
    cases c <;> cases s <;> rfl
  · intro c s
    cases c <;> cases s <;> rfl

/-- C5: for every measurement accepted by `write_sensor_measurement`, the
point handed to the database write call contains no tag key and no field
key whose value is null: every null-valued key is dropped from the tags map
and the fields map before transmission. -/
theorem write_point_no_null_values :
    ∀ (prepared : Option InfluxPoint) (influxMeasurement : String) (pt : Influx.WritePoint),
      Influx.write_sensor_measurement prepared influxMeasurement = some pt →
      Influx.noNullValues pt.tags = true ∧ Influx.noNullValues pt.fields = true := by
  intro prepared influxMeasurement pt h
  have hall : ∀ d : List (String × Value), Influx.noNullValues (Influx.pop_none_from_dict d) = true := by
    intro d
    exact List.all_eq_true.mpr (fun x hx => (List.mem_filter.mp hx).2)
  match prepared with
  | none => exact absurd h (by simp [Influx.write_sensor_measurement])
  | some p =>
    have h' := h
    simp only [Influx.write_sensor_measurement, Option.some.injEq] at h'
    subst h'
    exact ⟨hall p.tags, hall p.fields⟩

/-- A prepared point with one null-valued tag and one null-valued field,
used to exercise `write_sensor_measurement`. -/
def c5SamplePoint : InfluxPoint :=
  { time := .num 0,
    tags := [("sensor_id", .str "id"), ("place", .null)],
    fields := [("temp_f", .null), ("humidity", .num 40)] }

/-- The point `write_sensor_measurement` hands to the database for
`c5SamplePoint`: both null-valued keys are gone. -/
def c5WrittenPoint : Influx.WritePoint :=
  { measurement := "purpleair", time := .num 0,
    tags := [("sensor_id", .str "id")], fields := [("humidity", .num 40)] }

/-- C5 witness: the concrete accepted measurement `c5SamplePoint` is
written as `c5WrittenPoint`, which carries no null-valued key. -/
theorem write_point_no_null_values_witness :
    Influx.noNullValues c5WrittenPoint.tags = true ∧
    Influx.noNullValues c5WrittenPoint.fields = true :=
  write_point_no_null_values (some c5SamplePoint) "purpleair" c5WrittenPoint rfl

namespace PaLan

/-- The `_TAG_KEYS` set of `pa_lan.py` (lines 12-22), listed in source
order (the Python set's iteration order is unspecified; only the key SET
matters to the claims). -/
def tagKeys : List String :=
  ["SensorId", "Geo", "ssid", "lat", "lon", "place", "version", "hardwareversion",
   "hardwarediscovered"]

/-- The nan-guard test of `Measurement.prepare_for_influxdb` (`pa_lan.py`
lines 32-38): a particulate-prefixed key (`p_` or `pm`) whose value equals
the string "nan". -/
def nanGuardHit (kv : String × Value) : Bool :=
  (strStartsWith kv.1 "p_" || strStartsWith kv.1 "pm") &&
    (match kv.2 with | Value.str s => s == "nan" | _ => false)

/-- The tag-building loop of `prepare_for_influxdb` (`pa_lan.py` lines
40-42): `tags[key] = self._data[key]`, a KeyError when a tag key is
missing. -/
def buildTags (data : List (String × Value)) : List String → Except String (List (String × Value))
  | [] => .ok []
  | key :: rest => do
    let v ← getItem data key
    let t ← buildTags data rest
    .ok ((key, v) :: t)

/-- The field-selection loop of `prepare_for_influxdb` (`pa_lan.py` lines
44-51), iterating the sorted data keys: keep `current*` keys, `p*` keys
other than `pa_latency`/`period`/`place`, and `rssi`/`uptime`.  The three
`if` tests of the source are mutually exclusive on any key, so at most one
entry per key is produced, as in the source dict.  Keys come from the data
itself, so the `.getD .null` default is never taken. -/
def buildFields (data : List (String × Value)) : List String → List (String × Value)
  | [] => []
  | key :: rest =>
    let v := (lookupKey data key).getD .null
    ((if strStartsWith key "current" then [(key, v)] else []) ++
     (if strStartsWith key "p" && !(["pa_latency", "period", "place"].contains key)
      then [(key, v)] else []) ++
     (if ["rssi", "uptime"].contains key then [(key, v)] else [])) ++
      buildFields data rest

/-- A raw LAN JSON value used as an operand of the EPA-correction
arithmetic: numbers and bools are numeric in Python; a string operand would
raise TypeError.  (`get_epa_correction` tests for `None` before any
arithmetic, so the null test happens in `epaFields` below, not here.) -/
def valueAsNum (v : Value) : Except String ℚ :=
  match v with
  | .num q => .ok q
  | .bool b => .ok (if b then 1 else 0)
  | .str _ => .error "TypeError: unsupported operand type"
  | .null => .error "TypeError: unsupported operand type"

/-- Embeds the derived fields `pm2_5_epa_correction` and `pm2_5_aqi_epa`
(`measurement_base.py` lines 94-104) as used by the LAN
`prepare_for_influxdb` (`pa_lan.py` lines 53-54): the inputs are the raw
LAN accessors `pm2_5_cf_1`, `pm2_5_cf_1_b` and `humidity`
(`current_humidity`), each a plain `self._data[...]` subscript. -/
def epaFields (data : List (String × Value)) : Except String (Option ℚ × Option ℚ) := do
  let a ← getItem data "pm2_5_cf_1"
  let b ← getItem data "pm2_5_cf_1_b"
  let h ← getItem data "current_humidity"
  if a = Value.null ∨ b = Value.null ∨ h = Value.null then
    pure (none, none)
  else do
    let aq ← valueAsNum a
    let bq ← valueAsNum b
    let hq ← valueAsNum h
    let epa := MeasurementBase.get_epa_correction (some aq) (some bq) (some hq)
    pure (epa, epa.map MeasurementBase.get_aqi)

/-- Embeds `Measurement.prepare_for_influxdb` from `pa_lan.py` (lines
29-57).  If any particulate-prefixed key holds the string "nan", the
function returns the no-data sentinel `None` (modelled `.ok none`) before
building anything.  Otherwise it assembles the tags from `_TAG_KEYS`, the
fields from the sorted data keys, appends the two derived EPA fields, and
the point's `time` is `self._data["DateTime"].upper()` (AttributeError when
the value is not a string). -/
def prepare_for_influxdb (data : List (String × Value)) : Except String (Option InfluxPoint) := do
  if data.any nanGuardHit then
    pure none
  else
    let tags ← buildTags data tagKeys
    let sortedKeys := List.mergeSort (data.map Prod.fst) (fun a b => decide (a ≤ b))
    let fields := buildFields data sortedKeys
    let epa ← epaFields data
    let fields := fields ++
      [("pm2.5_epa_correction", optNumToValue epa.1), ("pm2.5_aqi_epa", optNumToValue epa.2)]
    let dt ← getItem data "DateTime"
    match dt with
    | .str s => pure (some { time := Value.str s.toUpper, tags := tags, fields := fields })
    | _ => .error "AttributeError: str.upper"

end PaLan

/-- C4: for every LAN raw reading in which any particulate-prefixed key
(prefix `p_` or `pm`) maps to the sentinel string "nan",
`prepare_for_influxdb` returns the no-data sentinel `None`, regardless of
all other field values, and no point is produced from that reading. -/
theorem lan_nan_guard_no_data :
    ∀ (data : List (String × Value)) (key : String),
      (key, Value.str "nan") ∈ data →
      (strStartsWith key "p_" || strStartsWith key "pm") = true →
      PaLan.prepare_for_influxdb data = .ok none := by
  intro data key hmem hpre
  have hany : data.any PaLan.nanGuardHit = true :=
    List.any_eq_true.mpr ⟨(key, Value.str "nan"), hmem, by simp [PaLan.nanGuardHit, hpre]⟩
  simp [PaLan.prepare_for_influxdb, hany, Pure.pure, Except.pure]

/-- A LAN raw reading in early boot phase: `p_0_3_um` is the sentinel
string "nan" while other fields hold ordinary values. -/
def lanNanSample : List (String × Value) :=
  [("SensorId", .str "84:f3:eb:44:5d:c4"), ("p_0_3_um", .str "nan"),
   ("pm2_5_cf_1", .num 7), ("rssi", .num (-61)), ("DateTime", .str "2021/01/01t00:00:00z")]

/-- C4 witness: the concrete reading `lanNanSample` (which carries
`p_0_3_um: "nan"`) yields the no-data sentinel. -/
theorem lan_nan_guard_no_data_witness :
    PaLan.prepare_for_influxdb lanNanSample = .ok none :=
  lan_nan_guard_no_data lanNanSample "p_0_3_um" (by simp [lanNanSample]) (by decide)

namespace PaLan

/-- Backtracking matcher for the tail of the source pattern
`r"\d+.\d+.\d+.\d+"` (`pa_lan.py` line 225): `matchRest k l` is true iff
`l` fullmatches `\d*(.\d+){k}` — the dots in the source pattern are NOT
escaped, so each matches an arbitrary single character.  The first disjunct
extends the current digit run; the second consumes the current character as
one of the `k` remaining any-char separators followed by a new nonempty
digit run. -/
def matchRest : ℕ → List Char → Bool
  | k, [] => k == 0
  | k, c :: rest =>
    (c.isDigit && matchRest k rest) ||
    (match k, rest with
     | k' + 1, c' :: rest' => c'.isDigit && matchRest k' rest'
     | _, _ => false)

/-- Embeds `re.fullmatch(r"\d+.\d+.\d+.\d+", addr)` from `pa_lan.py` line
225 as a boolean: a nonempty leading digit run followed by three
(any-char, digit-run) groups covering the whole string. -/
def fullmatchIpRegex (addr : String) : Bool :=
  match addr.toList with
  | [] => false
  | c :: rest => c.isDigit && matchRest 3 rest

/-- Models Python's `str.lower()` for the ASCII range (the hostnames in
question are ASCII). -/
def charLower (c : Char) : Char :=
  if 'A' ≤ c ∧ c ≤ 'Z' then Char.ofNat (c.toNat + 32) else c

/-- The lowercased character list of a string, as `addr.lower()` sees it. -/
def strLower (s : String) : List Char := s.toList.map charLower

/-- Embeds `re.match(r"^purpleair-\d+", addr.lower())` from `pa_lan.py`
line 226 as a boolean: `re.match` is anchored at the start but does NOT
require a full match, so it only demands the prefix `purpleair-` followed
by at least one digit. -/
def matchPurpleairRegex (addr : String) : Bool :=
  let l := strLower addr
  l.take 10 == "purpleair-".toList &&
    (match l.drop 10 with
     | c :: _ => c.isDigit
     | [] => false)

/-- Embeds the address validation of `Sensor.__init__` (`pa_lan.py` lines
218-230): raise ValueError when the address neither fullmatches the
IP-like pattern nor prefix-matches the purpleair hostname pattern. -/
def sensorInitCheck (addr : String) : Except String Unit :=
  if !fullmatchIpRegex addr then
    if !matchPurpleairRegex addr then
      .error "ValueError: addr must be an IP or PurpleAir hostname."
    else .ok ()
  else .ok ()

/-- Splits a character list on literal '.' characters. -/
def splitDots : List Char → List (List Char)
  | [] => [[]]
  | c :: rest =>
    if c = '.' then [] :: splitDots rest
    else
      match splitDots rest with
      | g :: gs => (c :: g) :: gs
      | [] => [[c]]

/-- Modelled from the spec: "an IPv4-dotted address" — exactly four
nonempty all-digit groups separated by literal dots. -/
def specIpv4Dotted (addr : String) : Bool :=
  let parts := splitDots addr.toList
  parts.length == 4 && parts.all (fun p => !p.isEmpty && p.all Char.isDigit)

/-- Modelled from the spec: "a purpleair-<digits> hostname" — the
lowercased address is exactly `purpleair-` followed by one or more
digits. -/
def specPurpleairHostname (addr : String) : Bool :=
  let l := strLower addr
  l.take 10 == "purpleair-".toList &&
    (!(l.drop 10).isEmpty && (l.drop 10).all Char.isDigit)

/-- Rejoins what `splitDots` split, interposing dots. -/
def joinDots : List (List Char) → List Char
  | [] => []
  | [g] => g
  | g :: gs => g ++ '.' :: joinDots gs

theorem splitDots_ne_nil (l : List Char) : splitDots l ≠ [] := by
  cases l with
  | nil => simp [splitDots]
  | cons c rest =>
    by_cases hc : c = '.'
    · simp [splitDots, hc]
    · cases h : splitDots rest with
      | nil => simp [splitDots, hc, h]
      | cons g gs => simp [splitDots, hc, h]

theorem joinDots_splitDots (l : List Char) : joinDots (splitDots l) = l := by
  induction l with
  | nil => rfl
  | cons c rest ih =>
    by_cases hc : c = '.'
    · subst hc
      cases h : splitDots rest with
      | nil => exact absurd h (splitDots_ne_nil rest)
      | cons g gs =>
        rw [h] at ih
        simp [splitDots, joinDots, h, ih]
    · cases h : splitDots rest with
      | nil => exact absurd h (splitDots_ne_nil rest)
      | cons g gs =>
        rw [h] at ih
        cases gs with
        | nil => simp [splitDots, joinDots, hc, h]; simpa [joinDots] using ih
        | cons g' gs' => simp [splitDots, joinDots, hc, h]; simpa [joinDots] using ih

theorem ne_nil_of_isEmpty_false {α : Type} {l : List α} (h : l.isEmpty = false) : l ≠ [] := by
  cases l <;> simp_all

theorem matchRest_cons (k : ℕ) (c : Char) (rest : List Char) :
    matchRest k (c :: rest) =
      ((c.isDigit && matchRest k rest) ||
       (match k, rest with
        | k' + 1, c' :: rest' => c'.isDigit && matchRest k' rest'
        | _, _ => false)) := by
  cases k <;> cases rest <;> rfl

theorem matchRest_append_digits (ds : List Char) :
    ∀ (t : List Char) (k : ℕ), ds.all Char.isDigit = true →
      matchRest k t = true → matchRest k (ds ++ t) = true := by
  induction ds with
  | nil => intro t k _ h; simpa using h
  | cons c ds ih =>
    intro t k hall h
    simp only [List.all_cons, Bool.and_eq_true] at hall
    show matchRest k (c :: (ds ++ t)) = true
    rw [matchRest_cons]
    simp only [Bool.or_eq_true, Bool.and_eq_true]
    exact Or.inl ⟨hall.1, ih t k hall.2 h⟩

theorem matchRest_sep (sep : Char) (g t : List Char) (k : ℕ)
    (hne : g ≠ []) (hall : g.all Char.isDigit = true) (h : matchRest k t = true) :
    matchRest (k + 1) (sep :: (g ++ t)) = true := by
  match g, hne with
  | d :: ds, _ =>
    simp only [List.all_cons, Bool.and_eq_true] at hall
    show matchRest (k + 1) (sep :: (d :: ds ++ t)) = true
    rw [List.cons_append, matchRest_cons]
    simp only [Bool.or_eq_true]
    refine Or.inr ?_
    show (d.isDigit && matchRest k (ds ++ t)) = true
    simp only [Bool.and_eq_true]
    exact ⟨hall.1, matchRest_append_digits ds t k hall.2 h⟩

theorem fullmatchIp_of_spec (addr : String) (h : specIpv4Dotted addr = true) :
    fullmatchIpRegex addr = true := by
  unfold specIpv4Dotted at h
  simp only [Bool.and_eq_true, beq_iff_eq] at h
  obtain ⟨hlen, hall⟩ := h
  rcases hsplit : splitDots addr.toList with _ | ⟨g1, _ | ⟨g2, _ | ⟨g3, _ | ⟨g4, rest⟩⟩⟩⟩ <;>
    rw [hsplit] at hlen <;> simp at hlen
  rw [hsplit] at hall
  subst hlen
  simp only [List.all_cons, List.all_nil, Bool.and_eq_true, Bool.and_true,
    Bool.not_eq_true'] at hall
  have hjoin := joinDots_splitDots addr.toList
  rw [hsplit] at hjoin
  have hl : addr.toList = g1 ++ '.' :: (g2 ++ '.' :: (g3 ++ '.' :: g4)) := by
    rw [← hjoin]; rfl
  obtain ⟨⟨hg1ne, hg1d⟩, ⟨hg2ne, hg2d⟩, ⟨hg3ne, hg3d⟩, hg4ne, hg4d⟩ := hall
  match g1, ne_nil_of_isEmpty_false hg1ne with
  | d :: ds, _ =>
    simp only [List.all_cons, Bool.and_eq_true] at hg1d
    unfold fullmatchIpRegex
    rw [hl]
    simp only [List.cons_append, Bool.and_eq_true]
    refine ⟨hg1d.1, ?_⟩
    apply matchRest_append_digits ds _ 3 hg1d.2
    apply matchRest_sep '.' g2 _ 2 (ne_nil_of_isEmpty_false hg2ne) hg2d
    apply matchRest_sep '.' g3 _ 1 (ne_nil_of_isEmpty_false hg3ne) hg3d
    have h4 : matchRest 1 ('.' :: (g4 ++ [])) = true :=
      matchRest_sep '.' g4 [] 0 (ne_nil_of_isEmpty_false hg4ne) hg4d rfl
    simpa using h4

theorem purpleairMatch_of_spec (addr : String) (h : specPurpleairHostname addr = true) :
    matchPurpleairRegex addr = true := by
  unfold specPurpleairHostname at h
  unfold matchPurpleairRegex
  simp only [Bool.and_eq_true, Bool.not_eq_true'] at h
  obtain ⟨hpre, hne, hdig⟩ := h
  simp only [Bool.and_eq_true]
  refine ⟨hpre, ?_⟩
  cases hd : (strLower addr).drop 10 with
  | nil => rw [hd] at hne; simp at hne
  | cons c rest =>
    rw [hd] at hdig
    simp only [List.all_cons, Bool.and_eq_true] at hdig
    exact hdig.1

end PaLan

/-- C9 counterexample: the address "1a2b3c4" is accepted by the LAN Sensor
constructor — the unescaped dots in the source regex `\d+.\d+.\d+.\d+`
match the letters — although it is neither an IPv4-dotted address nor a
`purpleair-<digits>` hostname. -/
theorem sensor_addr_validation_counterexample :
    PaLan.sensorInitCheck "1a2b3c4" = .ok () ∧
    PaLan.specIpv4Dotted "1a2b3c4" = false ∧
    PaLan.specPurpleairHostname "1a2b3c4" = false := by
  refine ⟨rfl, ?_, ?_⟩ <;> decide

/-- C9 amended: constructing a LAN Sensor succeeds exactly for an address
that fullmatches `\d+.\d+.\d+.\d+` with the unescaped dots matching ANY
character, or whose lowercased form starts with `purpleair-` followed by a
digit; every other address fails with ValueError at construction time.  In
particular every IPv4-dotted address and every `purpleair-<digits>`
hostname is still accepted. -/
theorem sensor_addr_validation_amended :
    (∀ addr : String, PaLan.sensorInitCheck addr = .ok () ↔
      (PaLan.fullmatchIpRegex addr = true ∨ PaLan.matchPurpleairRegex addr = true)) ∧
    (∀ addr : String, ¬(PaLan.fullmatchIpRegex addr = true ∨ PaLan.matchPurpleairRegex addr = true) →
      PaLan.sensorInitCheck addr
        = .error "ValueError: addr must be an IP or PurpleAir hostname.") ∧
    (∀ addr : String, PaLan.specIpv4Dotted addr = true →
      PaLan.sensorInitCheck addr = .ok ()) ∧
    (∀ addr : String, PaLan.specPurpleairHostname addr = true →
      PaLan.sensorInitCheck addr = .ok ()) := by
  have hiff : ∀ addr : String, PaLan.sensorInitCheck addr = .ok () ↔
      (PaLan.fullmatchIpRegex addr = true ∨ PaLan.matchPurpleairRegex addr = true) := by
    intro addr
    cases hip : PaLan.fullmatchIpRegex addr <;>
      cases hpa : PaLan.matchPurpleairRegex addr <;>
      simp [PaLan.sensorInitCheck, hip, hpa]
  refine ⟨hiff, ?_, ?_, ?_⟩
  · intro addr hno
    have hip : PaLan.fullmatchIpRegex addr = false := by
      cases h : PaLan.fullmatchIpRegex addr
      · rfl
      · exact absurd (Or.inl h) hno
    have hpa : PaLan.matchPurpleairRegex addr = false := by
      cases h : PaLan.matchPurpleairRegex addr
      · rfl
      · exact absurd (Or.inr h) hno
    simp [PaLan.sensorInitCheck, hip, hpa]
  · intro addr h
    exact (hiff addr).mpr (Or.inl (PaLan.fullmatchIp_of_spec addr h))
  · intro addr h
    exact (hiff addr).mpr (Or.inr (PaLan.purpleairMatch_of_spec addr h))

/-- C9 witness for the amended theorem: a genuine IPv4 address and a
genuine purpleair hostname are accepted, and an address matching neither
pattern is rejected with the ValueError. -/
theorem sensor_addr_validation_amended_witness :
    PaLan.sensorInitCheck "10.0.0.42" = .ok () ∧
    PaLan.sensorInitCheck "PurpleAir-7012" = .ok () ∧
    PaLan.sensorInitCheck "example.com"
      = .error "ValueError: addr must be an IP or PurpleAir hostname." :=
  ⟨sensor_addr_validation_amended.2.2.1 "10.0.0.42" (by decide),
   sensor_addr_validation_amended.2.2.2 "PurpleAir-7012" (by decide),
   sensor_addr_validation_amended.2.1 "example.com" (by decide)⟩

/-- Inversion for `Except` bind: a successful bind means the first step
succeeded and the continuation succeeded on its result. -/
theorem exceptBind_ok {α β : Type} {x : Except String α} {f : α → Except String β} {b : β}
    (h : (x >>= f) = .ok b) : ∃ a, x = .ok a ∧ f a = .ok b := by
  cases x with
  | ok a => exact ⟨a, rfl, h⟩
  | error e => exact absurd h (by simp [Bind.bind, Except.bind])

namespace PaWeb

/-- The `_SENSOR_KEYS` set of `pa_web.py` (lines 13-26), listed in source
order (the Python set's iteration order is unspecified; the claims concern
the key SET of the produced points). -/
def sensorKeys : List String :=
  ["pm1_0_atm", "pm2_5_atm", "pm10_0_atm", "pm1_0_cf_1", "pm2_5_cf_1", "pm10_0_cf_1",
   "p_0_3_um", "p_0_5_um", "p_1_0_um", "p_2_5_um", "p_5_0_um", "p_10_0_um"]

/-- The web `Measurement` state after `__init__` (`pa_web.py` lines 39-50):
`chA` is `results[0]`, `chB` is `results[1]` when present and stays at the
class default `{}` (here `[]`) for a single-channel reading.  `chAStats` is
the parsed `Stats` blob of channel A (the `json.loads` of the raw string is
not itself modelled; the claims consume only the parsed mapping). -/
structure Measurement where
  chA : List (String × Value)
  chAStats : List (String × Value)
  chB : List (String × Value) := []
  chBStats : List (String × Value) := []

/-- The shared shape of the twelve channel-A sensor properties
(`pa_web.py` lines 194-316, e.g. `pm1_0_atm`): `float(self._ch_a[key])`. -/
def sensorFieldA (chA : List (String × Value)) (key : String) : Except String ℚ := do
  pyFloat (← getItem chA key)

/-- The channel-B dict key read by the property named `<key>_b`: the
property `pm2_5_atm_b` (`pa_web.py` lines 285-290) reads
`self._ch_b.get("pm1_0_atm")` — it reads channel B's PM1.0 ATM entry, not
its PM2.5 ATM entry; the embedding reproduces the source as written. -/
def bSourceKey (key : String) : String :=
  if key == "pm2_5_atm" then "pm1_0_atm" else key

/-- The shared shape of the twelve channel-B sensor properties
(`pa_web.py` lines 198-323, e.g. `pm1_0_atm_b`): `self._ch_b.get(k)`,
passed through `float` only when it `is not None` (a missing key and a
null value both yield `None`). -/
def sensorFieldB (chB : List (String × Value)) (key : String) : Except String (Option ℚ) :=
  match lookupKey chB (bSourceKey key) with
  | none => .ok none
  | some .null => .ok none
  | some v => do .ok (some (← pyFloat v))

/-- The `pm2_5_atm_b` property of the web measurement
(`pa_web.py` lines 285-290). -/
def Measurement.pm2_5_atm_b (m : Measurement) : Except String (Option ℚ) :=
  sensorFieldB m.chB "pm2_5_atm"

/-- The `pm2_5_aqi` property (`pa_web.py` lines 181-184):
`_get_aqi(float(self._ch_a["PM2_5Value"]))`. -/
def Measurement.pm2_5_aqi (m : Measurement) : Except String ℚ := do
  Measurement.getAqi (← pyFloat (← getItem m.chA "PM2_5Value"))

/-- The `pm2_5_aqi_b` property (`pa_web.py` lines 186-191):
`None` when channel B has no `PM2_5Value`, else `_get_aqi(float(v))`. -/
def Measurement.pm2_5_aqi_b (m : Measurement) : Except String (Option ℚ) :=
  match lookupKey m.chB "PM2_5Value" with
  | none => .ok none
  | some .null => .ok none
  | some v => do .ok (some (← Measurement.getAqi (← pyFloat v)))

/-- The shared shape of the `rssi`, `uptime`, `temp_f` and `humidity`
properties (`pa_web.py` lines 109-135): `self._ch_a.get(key)`, passed
through `int` only when it `is not None`. -/
def intFieldOpt (ch : List (String × Value)) (key : String) : Except String (Option ℤ) :=
  match lookupKey ch key with
  | none => .ok none
  | some .null => .ok none
  | some v => do .ok (some (← pyInt v))

/-- The `rssi` property (`pa_web.py` lines 109-114). -/
def Measurement.rssi (m : Measurement) : Except String (Option ℤ) :=
  intFieldOpt m.chA "RSSI"

/-- The `uptime` property (`pa_web.py` lines 116-121). -/
def Measurement.uptime (m : Measurement) : Except String (Option ℤ) :=
  intFieldOpt m.chA "Uptime"

/-- The `temp_f` property (`pa_web.py` lines 123-128). -/
def Measurement.temp_f (m : Measurement) : Except String (Option ℤ) :=
  intFieldOpt m.chA "temp_f"

/-- The `humidity` property (`pa_web.py` lines 130-135). -/
def Measurement.humidity (m : Measurement) : Except String (Option ℤ) :=
  intFieldOpt m.chA "humidity"

/-- The `pressure` property (`pa_web.py` lines 137-142): like the int
fields but coerced with `float`. -/
def Measurement.pressure (m : Measurement) : Except String (Option ℚ) :=
  match lookupKey m.chA "pressure" with
  | none => .ok none
  | some .null => .ok none
  | some v => do .ok (some (← pyFloat v))

/-- The `place` property (`pa_web.py` lines 105-107):
`self._ch_a.get("DEVICE_LOCATIONTYPE")`, `None` (null) when absent. -/
def Measurement.place (m : Measurement) : Value :=
  (lookupKey m.chA "DEVICE_LOCATIONTYPE").getD .null

/-- The `timestamp` property (`pa_web.py` lines 91-95) up to formatting:
the `lastModified` epoch-millisecond value from the channel-A stats.  The
source divides by 1e3 and renders an ISO-8601 string via the datetime
library; that pure formatting step is not modelled and no claim depends on
it — the embedded point stores the epoch-millisecond number. -/
def Measurement.timestampMs (m : Measurement) : Except String ℚ := do
  match ← getItem m.chAStats "lastModified" with
  | .num q => .ok q
  | _ => .error "TypeError: unsupported operand type"

/-- The single-channel field loop of `prepare_for_influxdb`
(`pa_web.py` lines 79-82): `fields[key + "_b"] = getattr(self, key)` — the
lone channel's CHANNEL-A accessor stored under the `_b` key. -/
def buildFieldsSingle (chA : List (String × Value)) :
    List String → Except String (List (String × Value))
  | [] => .ok []
  | key :: rest => do
    let q ← sensorFieldA chA key
    let tail ← buildFieldsSingle chA rest
    .ok ((key ++ "_b", Value.num q) :: tail)

/-- The two-channel field loop of `prepare_for_influxdb`
(`pa_web.py` lines 64-67): for each sensor key, `fields[key]` from the
channel-A accessor and `fields[key + "_b"]` from the channel-B accessor. -/
def buildFieldsDouble (chA chB : List (String × Value)) :
    List String → Except String (List (String × Value))
  | [] => .ok []
  | key :: rest => do
    let qa ← sensorFieldA chA key
    let qb ← sensorFieldB chB key
    let tail ← buildFieldsDouble chA chB rest
    .ok ((key, Value.num qa) :: (key ++ "_b", optNumToValue qb) :: tail)

/-- Embeds `Measurement.prepare_for_influxdb` from `pa_web.py` (lines
52-85).  Tags: `sensor_id`, `label`, `lat`, `lon` (the source writes
`tags["lon"] = self.lat`, so `lon` repeats the latitude) and `hidden`
(`self._ch_a["Hidden"].lower() == "true"`).  With two channels: the
duplicated sensor fields, `pm2.5_aqi`, `pm2.5_aqi_b`, `temp_f`,
`pressure`, `humidity`, `rssi`, `uptime`, and the extra tags `place`,
`version`, `hardwarediscovered`, `type`.  With one channel: every sensor
field under its `_b` key plus `pm2.5_aqi_b` (from the channel-A AQI).
No EPA-derived field is written on either web path. -/
def Measurement.prepare_for_influxdb (m : Measurement) : Except String InfluxPoint := do
  let sensorId ← getItem m.chA "ID"
  let label ← getItem m.chA "Label"
  let lat ← getItem m.chA "Lat"
  let hidden ← (match ← getItem m.chA "Hidden" with
    | .str s => Except.ok (Value.bool (PaLan.strLower s == "true".toList))
    | _ => Except.error "AttributeError: str.lower")
  let tags0 : List (String × Value) :=
    [("sensor_id", sensorId), ("label", label), ("lat", lat), ("lon", lat),
     ("hidden", hidden)]
  if m.chB.isEmpty then
    let fields ← buildFieldsSingle m.chA sensorKeys
    let aqi ← m.pm2_5_aqi
    let t ← m.timestampMs
    .ok { time := .num t, tags := tags0,
          fields := fields ++ [("pm2.5_aqi_b", Value.num aqi)] }
  else
    let fields ← buildFieldsDouble m.chA m.chB sensorKeys
    let aqiA ← m.pm2_5_aqi
    let aqiB ← m.pm2_5_aqi_b
    let tempF ← m.temp_f
    let pres ← m.pressure
    let hum ← m.humidity
    let rs ← m.rssi
    let upt ← m.uptime
    let version ← getItem m.chA "Version"
    let hwd ← getItem m.chA "DEVICE_HARDWAREDISCOVERED"
    let typ ← getItem m.chA "Type"
    let t ← m.timestampMs
    .ok { time := .num t,
          tags := tags0 ++ [("place", m.place), ("version", version),
                            ("hardwarediscovered", hwd), ("type", typ)],
          fields := fields ++
            [("pm2.5_aqi", Value.num aqiA), ("pm2.5_aqi_b", optNumToValue aqiB),
             ("temp_f", optIntToValue tempF), ("pressure", optNumToValue pres),
             ("humidity", optIntToValue hum), ("rssi", optIntToValue rs),
             ("uptime", optIntToValue upt)] }

/-- The field keys produced by the two-channel loop: each sensor key
followed by its `_b` variant. -/
def pairKeys : List String → List String
  | [] => []
  | k :: rest => k :: (k ++ "_b") :: pairKeys rest

end PaWeb

theorem buildFieldsSingle_keys (chA : List (String × Value)) :
    ∀ (keys : List String) (l : List (String × Value)),
      PaWeb.buildFieldsSingle chA keys = .ok l →
      l.map Prod.fst = keys.map (fun k => k ++ "_b") := by
  intro keys
  induction keys with
  | nil =>
    intro l h
    simp only [PaWeb.buildFieldsSingle, Except.ok.injEq] at h
    subst h
    rfl
  | cons key rest ih =>
    intro l h
    simp only [PaWeb.buildFieldsSingle] at h
    obtain ⟨q, hq, h⟩ := exceptBind_ok h
    obtain ⟨tail, htail, h⟩ := exceptBind_ok h
    simp only [Except.ok.injEq] at h
    subst h
    simp [ih tail htail]

theorem buildFieldsDouble_ok (chA chB : List (String × Value)) :
    ∀ (keys : List String) (l : List (String × Value)),
      PaWeb.buildFieldsDouble chA chB keys = .ok l →
      l.map Prod.fst = PaWeb.pairKeys keys ∧
      ∀ key ∈ keys, ∃ qa qb, PaWeb.sensorFieldA chA key = .ok qa ∧
        PaWeb.sensorFieldB chB key = .ok qb ∧
        (key, Value.num qa) ∈ l ∧ (key ++ "_b", optNumToValue qb) ∈ l := by
  intro keys
  induction keys with
  | nil =>
    intro l h
    simp only [PaWeb.buildFieldsDouble, Except.ok.injEq] at h
    subst h
    exact ⟨rfl, by simp⟩
  | cons key rest ih =>
    intro l h
    simp only [PaWeb.buildFieldsDouble] at h
    obtain ⟨qa, hqa, h⟩ := exceptBind_ok h
    obtain ⟨qb, hqb, h⟩ := exceptBind_ok h
    obtain ⟨tail, htail, h⟩ := exceptBind_ok h
    simp only [Except.ok.injEq] at h
    subst h
    obtain ⟨ihk, ihm⟩ := ih tail htail
    constructor
    · simp [PaWeb.pairKeys, ihk]
    · intro k hk
      rcases List.mem_cons.mp hk with hk | hk
      · subst hk
        exact ⟨qa, qb, hqa, hqb, by simp, by simp⟩
      · obtain ⟨qa', qb', h1, h2, h3, h4⟩ := ihm k hk
        exact ⟨qa', qb', h1, h2, by simp [h3], by simp [h4]⟩

theorem prepare_single_inv (m : PaWeb.Measurement) (pt : InfluxPoint)
    (hb : m.chB.isEmpty = true)
    (h : m.prepare_for_influxdb = .ok pt) :
    ∃ (l : List (String × Value)) (aqi : ℚ),
      PaWeb.buildFieldsSingle m.chA PaWeb.sensorKeys = .ok l ∧
      pt.fields = l ++ [("pm2.5_aqi_b", Value.num aqi)] := by
  unfold PaWeb.Measurement.prepare_for_influxdb at h
  obtain ⟨sid, hsid, h⟩ := exceptBind_ok h
  obtain ⟨hvraw, hhv, h⟩ := exceptBind_ok h
  dsimp only at h
  obtain ⟨label, hlabel, h⟩ := exceptBind_ok h
  obtain ⟨lat, hlat, h⟩ := exceptBind_ok h
  obtain ⟨hid, hhid, h⟩ := exceptBind_ok h
  rw [if_pos hb] at h
  obtain ⟨l, hl, h⟩ := exceptBind_ok h
  obtain ⟨aqi, haqi, h⟩ := exceptBind_ok h
  obtain ⟨t, ht, h⟩ := exceptBind_ok h
  simp only [Except.ok.injEq] at h
  subst h
  exact ⟨l, aqi, hl, rfl⟩

theorem prepare_double_inv (m : PaWeb.Measurement) (pt : InfluxPoint)
    (hb : m.chB.isEmpty = false)
    (h : m.prepare_for_influxdb = .ok pt) :
    ∃ (l : List (String × Value)) (aqiA : ℚ) (aqiB : Option ℚ) (tempF : Option ℤ)
      (pres : Option ℚ) (hum rs upt : Option ℤ),
      PaWeb.buildFieldsDouble m.chA m.chB PaWeb.sensorKeys = .ok l ∧
      m.pm2_5_aqi = .ok aqiA ∧ m.pm2_5_aqi_b = .ok aqiB ∧
      pt.fields = l ++
        [("pm2.5_aqi", Value.num aqiA), ("pm2.5_aqi_b", optNumToValue aqiB),
         ("temp_f", optIntToValue tempF), ("pressure", optNumToValue pres),
         ("humidity", optIntToValue hum), ("rssi", optIntToValue rs),
         ("uptime", optIntToValue upt)] := by
  unfold PaWeb.Measurement.prepare_for_influxdb at h
  obtain ⟨sid, hsid, h⟩ := exceptBind_ok h
  obtain ⟨label, hlabel, h⟩ := exceptBind_ok h
  obtain ⟨lat, hlat, h⟩ := exceptBind_ok h
  obtain ⟨hvraw, hhv, h⟩ := exceptBind_ok h
  obtain ⟨hid, hhid, h⟩ := exceptBind_ok h
  rw [if_neg (by simp [hb])] at h
  obtain ⟨l, hl, h⟩ := exceptBind_ok h
  obtain ⟨aqiA, haqiA, h⟩ := exceptBind_ok h
  obtain ⟨aqiB, haqiB, h⟩ := exceptBind_ok h
  obtain ⟨tempF, htempF, h⟩ := exceptBind_ok h
  obtain ⟨pres, hpres, h⟩ := exceptBind_ok h
  obtain ⟨hum, hhum, h⟩ := exceptBind_ok h
  obtain ⟨rs, hrs, h⟩ := exceptBind_ok h
  obtain ⟨upt, hupt, h⟩ := exceptBind_ok h
  obtain ⟨version, hversion, h⟩ := exceptBind_ok h
  obtain ⟨hwd, hhwd, h⟩ := exceptBind_ok h
  obtain ⟨typ, htyp, h⟩ := exceptBind_ok h
  obtain ⟨t, ht, h⟩ := exceptBind_ok h
  simp only [Except.ok.injEq] at h
  subst h
  exact ⟨l, aqiA, aqiB, tempF, pres, hum, rs, upt, hl, haqiA, haqiB, rfl⟩

theorem lookupKey_of_nodup :
    ∀ (l : List (String × Value)) (k : String) (v : Value),
      (l.map Prod.fst).Nodup → (k, v) ∈ l → lookupKey l k = some v := by
  intro l
  induction l with
  | nil => intro k v _ hm; simp at hm
  | cons kv rest ih =>
    intro k v hnd hm
    obtain ⟨k', v'⟩ := kv
    simp only [List.map_cons, List.nodup_cons] at hnd
    rcases List.mem_cons.mp hm with he | hm
    · have hk : k = k' := congrArg Prod.fst he
      have hv : v = v' := congrArg Prod.snd he
      subst hk; subst hv
      simp [lookupKey]
    · have hk : k' ≠ k := by
        intro hkk
        exact hnd.1 (List.mem_map.mpr ⟨(k, v), hm, hkk.symm⟩)
      simp only [lookupKey]
      rw [if_neg (by simp [hk])]
      exact ih k v hnd.2 hm

/-- C7: a one-channel web reading produces a point whose field keys are
exactly the single-channel sensor-measurement set all suffixed `_b` (the
lone channel is stored as channel B); a two-channel web reading produces
both the unsuffixed and the `_b`-suffixed key for every shared
sensor-measurement field. -/
theorem web_channel_field_keys :
    (∀ (m : PaWeb.Measurement) (pt : InfluxPoint), m.chB = [] →
      m.prepare_for_influxdb = .ok pt →
      pt.fields.map Prod.fst
        = PaWeb.sensorKeys.map (fun k => k ++ "_b") ++ ["pm2.5_aqi_b"]) ∧
    (∀ (m : PaWeb.Measurement) (pt : InfluxPoint), m.chB ≠ [] →
      m.prepare_for_influxdb = .ok pt →
      ∀ key ∈ PaWeb.sensorKeys,
        key ∈ pt.fields.map Prod.fst ∧ (key ++ "_b") ∈ pt.fields.map Prod.fst) := by
  constructor
  · intro m pt hb h
    obtain ⟨l, aqi, hl, hf⟩ := prepare_single_inv m pt (by simp [hb]) h
    rw [hf]
    simp [buildFieldsSingle_keys m.chA PaWeb.sensorKeys l hl]
  · intro m pt hb h
    obtain ⟨l, aqiA, aqiB, tempF, pres, hum, rs, upt, hl, _, _, hf⟩ :=
      prepare_double_inv m pt (by simpa [List.isEmpty_iff] using hb) h
    obtain ⟨hkeys, _⟩ := buildFieldsDouble_ok m.chA m.chB PaWeb.sensorKeys l hl
    intro key hk
    rw [hf]
    simp only [List.map_append, hkeys, List.map_cons, List.map_nil]
    fin_cases hk <;> decide

/-- C8 counterexample helper is below with the sample data; this is the
amended general statement.  C8 amended: a two-channel web reading's point
carries exactly the duplicated sensor keys plus `pm2.5_aqi`,
`pm2.5_aqi_b`, `temp_f`, `pressure`, `humidity`, `rssi` and `uptime` —
and does NOT carry the derived EPA fields `pm2.5_epa_correction` /
`pm2.5_aqi_epa` (those are written only by the LAN variant). -/
theorem web_two_channel_fields_no_epa :
    ∀ (m : PaWeb.Measurement) (pt : InfluxPoint), m.chB ≠ [] →
      m.prepare_for_influxdb = .ok pt →
      pt.fields.map Prod.fst
        = PaWeb.pairKeys PaWeb.sensorKeys ++
          ["pm2.5_aqi", "pm2.5_aqi_b", "temp_f", "pressure", "humidity", "rssi", "uptime"] ∧
      "pm2.5_epa_correction" ∉ pt.fields.map Prod.fst ∧
      "pm2.5_aqi_epa" ∉ pt.fields.map Prod.fst := by
  intro m pt hb h
  obtain ⟨l, aqiA, aqiB, tempF, pres, hum, rs, upt, hl, _, _, hf⟩ :=
    prepare_double_inv m pt (by simpa [List.isEmpty_iff] using hb) h
  obtain ⟨hkeys, _⟩ := buildFieldsDouble_ok m.chA m.chB PaWeb.sensorKeys l hl
  have hmap : pt.fields.map Prod.fst
      = PaWeb.pairKeys PaWeb.sensorKeys ++
        ["pm2.5_aqi", "pm2.5_aqi_b", "temp_f", "pressure", "humidity", "rssi", "uptime"] := by
    rw [hf]
    simp [List.map_append, hkeys]
  refine ⟨hmap, ?_, ?_⟩ <;> rw [hmap] <;> decide

/-- C10: the accessor `pm2_5_atm_b` returns channel B's `pm1_0_atm` value
coerced to float (not channel B's `pm2_5_atm` value), returns null when
channel B has no `pm1_0_atm` entry, and consequently the `pm2_5_atm_b`
field of a two-channel point carries channel B's PM1.0 ATM reading. -/
theorem pm2_5_atm_b_reads_pm1_0_atm :
    (∀ (m : PaWeb.Measurement) (v : Value) (q : ℚ),
      lookupKey m.chB "pm1_0_atm" = some v → pyFloat v = .ok q →
      m.pm2_5_atm_b = .ok (some q)) ∧
    (∀ m : PaWeb.Measurement, lookupKey m.chB "pm1_0_atm" = none →
      m.pm2_5_atm_b = .ok none) ∧
    (∀ (m : PaWeb.Measurement) (pt : InfluxPoint) (v : Value) (q : ℚ),
      m.chB ≠ [] → m.prepare_for_influxdb = .ok pt →
      lookupKey m.chB "pm1_0_atm" = some v → pyFloat v = .ok q →
      lookupKey pt.fields "pm2_5_atm_b" = some (Value.num q)) := by
  have hacc : ∀ (chB : List (String × Value)) (v : Value) (q : ℚ),
      lookupKey chB "pm1_0_atm" = some v → pyFloat v = .ok q →
      PaWeb.sensorFieldB chB "pm2_5_atm" = .ok (some q) := by
    intro chB v q hv hq
    have hbk : PaWeb.bSourceKey "pm2_5_atm" = "pm1_0_atm" := rfl
    unfold PaWeb.sensorFieldB
    rw [hbk, hv]
    cases v with
    | null => exact absurd hq (by simp [pyFloat])
    | str s =>
      simp only [Bind.bind, Except.bind] at *
      rw [hq]
    | num qv =>
      simp only [Bind.bind, Except.bind] at *
      rw [hq]
    | bool b =>
      simp only [Bind.bind, Except.bind] at *
      rw [hq]
  refine ⟨?_, ?_, ?_⟩
  · intro m v q hv hq
    exact hacc m.chB v q hv hq
  · intro m hv
    unfold PaWeb.Measurement.pm2_5_atm_b PaWeb.sensorFieldB
    rw [show PaWeb.bSourceKey "pm2_5_atm" = "pm1_0_atm" from rfl, hv]
  · intro m pt v q hb h hv hq
    obtain ⟨l, aqiA, aqiB, tempF, pres, hum, rs, upt, hl, _, _, hf⟩ :=
      prepare_double_inv m pt (by simpa [List.isEmpty_iff] using hb) h
    obtain ⟨hkeys, hmem⟩ := buildFieldsDouble_ok m.chA m.chB PaWeb.sensorKeys l hl
    obtain ⟨qa, qb, hqa, hqb, hina, hinb⟩ := hmem "pm2_5_atm" (by decide)
    have hqb' : qb = some q := by
      have := hacc m.chB v q hv hq
      rw [this] at hqb
      exact (Except.ok.injEq _ _ ▸ hqb).symm
    subst hqb'
    have hnd : (pt.fields.map Prod.fst).Nodup := by
      rw [hf]
      simp only [List.map_append, hkeys, List.map_cons, List.map_nil]
      decide
    have hin : ("pm2_5_atm" ++ "_b", optNumToValue (some q)) ∈ pt.fields := by
      rw [hf]
      exact List.mem_append_left _ hinb
    have := lookupKey_of_nodup pt.fields ("pm2_5_atm" ++ "_b") (optNumToValue (some q)) hnd hin
    simpa [optNumToValue] using this

/-- Channel-A data of the golden web samples. -/
def webChA : List (String × Value) :=
  [("ID", .num 12345), ("Label", .str "Roof"), ("Lat", .num 47), ("Lon", .num 122),
   ("Hidden", .str "false"), ("Version", .str "6.01"),
   ("DEVICE_HARDWAREDISCOVERED", .str "2.0+BME280"), ("Type", .str "PMS5003"),
   ("DEVICE_LOCATIONTYPE", .str "outside"), ("PM2_5Value", .num 10),
   ("temp_f", .num 72), ("pressure", .num 1013), ("humidity", .num 40),
   ("RSSI", .num (-60)), ("Uptime", .num 3600),
   ("pm1_0_atm", .num 1), ("pm2_5_atm", .num 2), ("pm10_0_atm", .num 3),
   ("pm1_0_cf_1", .num 4), ("pm2_5_cf_1", .num 5), ("pm10_0_cf_1", .num 6),
   ("p_0_3_um", .num 7), ("p_0_5_um", .num 8), ("p_1_0_um", .num 9),
   ("p_2_5_um", .num 10), ("p_5_0_um", .num 11), ("p_10_0_um", .num 12)]

/-- Channel-B data of the golden two-channel web sample. -/
def webChB : List (String × Value) :=
  [("PM2_5Value", .num 20),
   ("pm1_0_atm", .num 101), ("pm2_5_atm", .num 102), ("pm10_0_atm", .num 103),
   ("pm1_0_cf_1", .num 104), ("pm2_5_cf_1", .num 105), ("pm10_0_cf_1", .num 106),
   ("p_0_3_um", .num 107), ("p_0_5_um", .num 108), ("p_1_0_um", .num 109),
   ("p_2_5_um", .num 110), ("p_5_0_um", .num 111), ("p_10_0_um", .num 112)]

/-- Channel-A stats blob of the golden web samples. -/
def webStats : List (String × Value) := [("lastModified", .num 1610000000000)]

/-- A one-channel web measurement (channel B at its empty default). -/
def webSingleSample : PaWeb.Measurement := { chA := webChA, chAStats := webStats }

/-- A two-channel web measurement. -/
def webDoubleSample : PaWeb.Measurement :=
  { chA := webChA, chAStats := webStats, chB := webChB, chBStats := webStats }

/-- The point prepared from `webSingleSample`: every field key is
`_b`-suffixed. -/
def webSinglePoint : InfluxPoint :=
  { time := Value.num 1610000000000,
    tags := [("sensor_id", Value.num 12345), ("label", Value.str "Roof"),
             ("lat", Value.num 47), ("lon", Value.num 47), ("hidden", Value.bool false)],
    fields := [("pm1_0_atm_b", Value.num 1), ("pm2_5_atm_b", Value.num 2),
               ("pm10_0_atm_b", Value.num 3), ("pm1_0_cf_1_b", Value.num 4),
               ("pm2_5_cf_1_b", Value.num 5), ("pm10_0_cf_1_b", Value.num 6),
               ("p_0_3_um_b", Value.num 7), ("p_0_5_um_b", Value.num 8),
               ("p_1_0_um_b", Value.num 9), ("p_2_5_um_b", Value.num 10),
               ("p_5_0_um_b", Value.num 11), ("p_10_0_um_b", Value.num 12),
               ("pm2.5_aqi_b", Value.num (125 / 3))] }

theorem getAqiWeb_ten : PaWeb.Measurement.getAqi 10 = .ok (125 / 3) := by
  norm_num [PaWeb.Measurement.getAqi, PaWeb.concentrationLimitsWeb, PaWeb.aqiLimitsWeb,
    List.find?]

theorem webSingleSample_prepare :
    webSingleSample.prepare_for_influxdb = .ok webSinglePoint := by
  simp +decide [webSingleSample, webSinglePoint, webChA, webStats,
    PaWeb.Measurement.prepare_for_influxdb, PaWeb.buildFieldsSingle, PaWeb.sensorKeys,
    PaWeb.sensorFieldA, PaWeb.Measurement.pm2_5_aqi, PaWeb.Measurement.timestampMs,
    getItem, lookupKey, pyFloat, getAqiWeb_ten, Bind.bind, Except.bind,
    PaLan.strLower, PaLan.charLower]

/-- The point prepared from `webDoubleSample`.  Note `pm2_5_atm_b` carries
101 — channel B's `pm1_0_atm` value — not channel B's `pm2_5_atm` value
102, and no EPA-derived field is present. -/
def webDoublePoint : InfluxPoint :=
  { time := Value.num 1610000000000,
    tags := [("sensor_id", Value.num 12345), ("label", Value.str "Roof"),
             ("lat", Value.num 47), ("lon", Value.num 47), ("hidden", Value.bool false),
             ("place", Value.str "outside"), ("version", Value.str "6.01"),
             ("hardwarediscovered", Value.str "2.0+BME280"), ("type", Value.str "PMS5003")],
    fields := [("pm1_0_atm", Value.num 1), ("pm1_0_atm_b", Value.num 101),
               ("pm2_5_atm", Value.num 2), ("pm2_5_atm_b", Value.num 101),
               ("pm10_0_atm", Value.num 3), ("pm10_0_atm_b", Value.num 103),
               ("pm1_0_cf_1", Value.num 4), ("pm1_0_cf_1_b", Value.num 104),
               ("pm2_5_cf_1", Value.num 5), ("pm2_5_cf_1_b", Value.num 105),
               ("pm10_0_cf_1", Value.num 6), ("pm10_0_cf_1_b", Value.num 106),
               ("p_0_3_um", Value.num 7), ("p_0_3_um_b", Value.num 107),
               ("p_0_5_um", Value.num 8), ("p_0_5_um_b", Value.num 108),
               ("p_1_0_um", Value.num 9), ("p_1_0_um_b", Value.num 109),
               ("p_2_5_um", Value.num 10), ("p_2_5_um_b", Value.num 110),
               ("p_5_0_um", Value.num 11), ("p_5_0_um_b", Value.num 111),
               ("p_10_0_um", Value.num 12), ("p_10_0_um_b", Value.num 112),
               ("pm2.5_aqi", Value.num (125 / 3)), ("pm2.5_aqi_b", Value.num (15754 / 233)),
               ("temp_f", Value.num 72), ("pressure", Value.num 1013),
               ("humidity", Value.num 40), ("rssi", Value.num (-60)),
               ("uptime", Value.num 3600)] }

theorem getAqiWeb_twenty : PaWeb.Measurement.getAqi 20 = .ok (15754 / 233) := by
  norm_num [PaWeb.Measurement.getAqi, PaWeb.concentrationLimitsWeb, PaWeb.aqiLimitsWeb,
    List.find?]

theorem webDoubleSample_prepare :
    webDoubleSample.prepare_for_influxdb = .ok webDoublePoint := by
  simp +decide [webDoubleSample, webDoublePoint, webChA, webChB, webStats,
    PaWeb.Measurement.prepare_for_influxdb, PaWeb.buildFieldsDouble, PaWeb.sensorKeys,
    PaWeb.sensorFieldA, PaWeb.sensorFieldB, PaWeb.bSourceKey,
    PaWeb.Measurement.pm2_5_aqi, PaWeb.Measurement.pm2_5_aqi_b,
    PaWeb.Measurement.temp_f, PaWeb.Measurement.pressure, PaWeb.Measurement.humidity,
    PaWeb.Measurement.rssi, PaWeb.Measurement.uptime, PaWeb.intFieldOpt,
    PaWeb.Measurement.place, PaWeb.Measurement.timestampMs,
    getItem, lookupKey, pyFloat, pyInt, pyTrunc, optNumToValue, optIntToValue,
    getAqiWeb_ten, getAqiWeb_twenty, Bind.bind, Except.bind,
    PaLan.strLower, PaLan.charLower]

/-- C7 witness: the concrete one-channel reading yields exactly the
`_b`-suffixed key set, and the concrete two-channel reading carries both
`pm1_0_atm` and `pm1_0_atm_b`. -/
theorem web_channel_field_keys_witness :
    webSinglePoint.fields.map Prod.fst
      = PaWeb.sensorKeys.map (fun k => k ++ "_b") ++ ["pm2.5_aqi_b"] ∧
    ("pm1_0_atm" ∈ webDoublePoint.fields.map Prod.fst ∧
     "pm1_0_atm_b" ∈ webDoublePoint.fields.map Prod.fst) :=
  ⟨web_channel_field_keys.1 webSingleSample webSinglePoint rfl webSingleSample_prepare,
   web_channel_field_keys.2 webDoubleSample webDoublePoint (by decide) webDoubleSample_prepare
     "pm1_0_atm" (by decide)⟩

/-- C8 counterexample: the concrete two-channel web reading
`webDoubleSample` prepares successfully, but its point carries neither
`pm2.5_epa_correction` nor `pm2.5_aqi_epa` — the web point has no derived
EPA fields. -/
theorem web_epa_fields_counterexample :
    webDoubleSample.prepare_for_influxdb = .ok webDoublePoint ∧
    "pm2.5_epa_correction" ∉ webDoublePoint.fields.map Prod.fst ∧
    "pm2.5_aqi_epa" ∉ webDoublePoint.fields.map Prod.fst :=
  ⟨webDoubleSample_prepare, by decide, by decide⟩

/-- C8 witness for the amended theorem, at the concrete two-channel
reading. -/
theorem web_two_channel_fields_no_epa_witness :
    webDoublePoint.fields.map Prod.fst
      = PaWeb.pairKeys PaWeb.sensorKeys ++
        ["pm2.5_aqi", "pm2.5_aqi_b", "temp_f", "pressure", "humidity", "rssi", "uptime"] ∧
    "pm2.5_epa_correction" ∉ webDoublePoint.fields.map Prod.fst ∧
    "pm2.5_aqi_epa" ∉ webDoublePoint.fields.map Prod.fst :=
  web_two_channel_fields_no_epa webDoubleSample webDoublePoint (by decide)
    webDoubleSample_prepare

/-- C10 witness: in `webDoubleSample`, channel B's `pm1_0_atm` entry is 101
(its `pm2_5_atm` entry is 102); the accessor `pm2_5_atm_b` returns 101 and
the produced point stores 101 under `pm2_5_atm_b`. -/
theorem pm2_5_atm_b_reads_pm1_0_atm_witness :
    webDoubleSample.pm2_5_atm_b = .ok (some 101) ∧
    lookupKey webDoublePoint.fields "pm2_5_atm_b" = some (Value.num 101) :=
  ⟨pm2_5_atm_b_reads_pm1_0_atm.1 webDoubleSample (Value.num 101) 101 rfl rfl,
   pm2_5_atm_b_reads_pm1_0_atm.2.2 webDoubleSample webDoublePoint (Value.num 101) 101
     (by decide) webDoubleSample_prepare rfl rfl⟩
